import Mathlib

/-!
Shallow embedding of the self-healing Naukri automation bot
(`src/error-analyzer.ts`, the bot driver in `src/unnamed/part_000`, and the
LLM job analyzer in `src/unnamed/part_001`), together with proofs settling
the specification claims.

External effects (the Ollama oracle, Playwright page probes, stdin) are
modelled as explicit environment parameters; everything the TypeScript code
computes itself is translated function-by-function.
-/

namespace NaukriBot

/-! ## String helpers mirroring JavaScript string methods -/

/-- JavaScript `s.includes(sub)`: case-sensitive substring containment. -/
def strIncludes (s sub : String) : Bool :=
  (s.data.tails).any (fun t => sub.data.isPrefixOf t)

/-- ASCII lower-casing of one character. -/
def jsCharToLower (c : Char) : Char :=
  if 'A' ≤ c ∧ c ≤ 'Z' then Char.ofNat (c.toNat + 32) else c

/-- JavaScript `s.toLowerCase()` (ASCII, which is all the code relies on). -/
def jsToLower (s : String) : String := String.mk (s.data.map jsCharToLower)

/-! ## `error-analyzer.ts` data model -/

/-- Values of `ErrorAnalysis.errorType` (a string union in TypeScript). -/
inductive ErrorType
  | timeout | locator | network | captcha | ui_change | unknown
  deriving DecidableEq, Repr

/-- Values of `ErrorAnalysis.severity`. -/
inductive Severity
  | low | medium | high
  deriving DecidableEq, Repr

/-- The `ErrorAnalysis` interface of `error-analyzer.ts`. -/
structure ErrorAnalysis where
  errorType : ErrorType
  severity : Severity
  suggestedFixes : List String
  alternativeLocators : List String
  shouldRetry : Bool
  retryDelay : Nat
  deriving DecidableEq, Repr

/-- The `FixAttempt` interface of `error-analyzer.ts` (`newLocator?` is an
optional field). -/
structure FixAttempt where
  strategy : String
  success : Bool
  newLocator : Option String := none
  notes : String
  deriving DecidableEq, Repr

/-- Embedding of `ErrorAnalysisEngine.getContextBasedLocators`. -/
def getContextBasedLocators (context : String) : List String :=
  if strIncludes context "login" then
    ["#usernameField", "[name=\"email\"]", "[type=\"email\"]", "#emailField"]
  else if strIncludes context "job" then
    [".jobTuple", ".job-card", ".job-listing", ".title"]
  else if strIncludes context "apply" then
    ["button:has-text(\"Apply\")", ".apply-btn", "a:has-text(\"Apply\")"]
  else []

/-- Embedding of `ErrorAnalysisEngine.fallbackErrorAnalysis`.  Note the keyword tests use
JavaScript `String.prototype.includes`, which is case-sensitive. -/
def fallbackErrorAnalysis (errorMessage context : String) : ErrorAnalysis :=
  if strIncludes errorMessage "timeout" then
    { errorType := .timeout
      severity := .medium
      suggestedFixes := ["increase timeout", "wait for load", "retry navigation"]
      alternativeLocators := []
      shouldRetry := true
      retryDelay := 5000 }
  else if strIncludes errorMessage "locator" || strIncludes errorMessage "selector" then
    { errorType := .locator
      severity := .high
      suggestedFixes := ["try alternative locators", "update selectors", "wait for element"]
      alternativeLocators := getContextBasedLocators context
      shouldRetry := true
      retryDelay := 2000 }
  else
    { errorType := .unknown
      severity := .medium
      suggestedFixes := ["retry operation", "wait and retry"]
      alternativeLocators := []
      shouldRetry := true
      retryDelay := 3000 }

/-! ## A model of JavaScript JSON values and `JSON.parse`

`analyzeError` feeds the oracle text through `String.match` and `JSON.parse`
and casts the result with `as ErrorAnalysis` — an unchecked cast.  To reason
about that we need JSON values as first-class data.  Numbers are modelled as
rationals (exact decimals; IEEE rounding is immaterial to the claims). -/

inductive Json where
  | null : Json
  | bool (b : Bool) : Json
  | num (q : ℚ) : Json
  | str (s : String) : Json
  | arr (elems : List Json) : Json
  | obj (members : List (String × Json)) : Json

/-- Property lookup on a parsed object: `JSON.parse` assigns duplicate keys in
order, so the last binding wins. -/
def jsObjGet (members : List (String × Json)) (key : String) : Option Json :=
  (members.reverse.find? (fun kv => kv.1 == key)).map (·.2)

/-- JSON whitespace skipping. -/
def skipWs : List Char → List Char
  | c :: cs => if c = ' ' ∨ c = '\t' ∨ c = '\n' ∨ c = '\r' then skipWs cs else c :: cs
  | [] => []

def hexVal (c : Char) : Option Nat :=
  if '0' ≤ c ∧ c ≤ '9' then some (c.toNat - 48)
  else if 'a' ≤ c ∧ c ≤ 'f' then some (c.toNat - 87)
  else if 'A' ≤ c ∧ c ≤ 'F' then some (c.toNat - 55)
  else none

/-- Body of a JSON string literal (after the opening quote), with the escape
sequences `JSON.parse` accepts; unescaped control characters are rejected. -/
def parseStrBody : Nat → List Char → List Char → Option (String × List Char)
  | 0, _, _ => none
  | fuel + 1, acc, cs =>
    match cs with
    | [] => none
    | '"' :: r => some (String.mk acc.reverse, r)
    | '\\' :: e :: r =>
      match e with
      | '"' => parseStrBody fuel ('"' :: acc) r
      | '\\' => parseStrBody fuel ('\\' :: acc) r
      | '/' => parseStrBody fuel ('/' :: acc) r
      | 'b' => parseStrBody fuel ('\x08' :: acc) r
      | 'f' => parseStrBody fuel ('\x0c' :: acc) r
      | 'n' => parseStrBody fuel ('\n' :: acc) r
      | 'r' => parseStrBody fuel ('\r' :: acc) r
      | 't' => parseStrBody fuel ('\t' :: acc) r
      | 'u' =>
        match r with
        | h1 :: h2 :: h3 :: h4 :: r4 =>
          match hexVal h1, hexVal h2, hexVal h3, hexVal h4 with
          | some a, some b, some c, some d =>
            parseStrBody fuel (Char.ofNat (((a * 16 + b) * 16 + c) * 16 + d) :: acc) r4
          | _, _, _, _ => none
        | _ => none
      | _ => none
    | c :: r => if c.toNat < 32 then none else parseStrBody fuel (c :: acc) r

def digitsToNat (ds : List Char) : Nat :=
  ds.foldl (fun a c => a * 10 + (c.toNat - 48)) 0

/-- A JSON number literal, evaluated exactly as a rational. -/
def parseNumber (cs : List Char) : Option (ℚ × List Char) :=
  let signPart : Bool × List Char := match cs with
    | '-' :: r => (true, r)
    | _ => (false, cs)
  let neg := signPart.1
  let cs1 := signPart.2
  let ipart := cs1.takeWhile (·.isDigit)
  let cs2 := cs1.dropWhile (·.isDigit)
  if ipart.isEmpty then none
  else if ipart.length > 1 ∧ ipart.headD '0' = '0' then none
  else
    let fracPart : List Char × List Char := match cs2 with
      | '.' :: r =>
        let fd := r.takeWhile (·.isDigit)
        if fd.isEmpty then ([], cs2) else (fd, r.dropWhile (·.isDigit))
      | _ => ([], cs2)
    let fracDigits := fracPart.1
    let cs3 := fracPart.2
    let expRes : Option (Int × List Char) := match cs3 with
      | 'e' :: r | 'E' :: r =>
        let signExp : Int × List Char := match r with
          | '+' :: r2 => ((1 : Int), r2)
          | '-' :: r2 => ((-1 : Int), r2)
          | _ => ((1 : Int), r)
        let ed := signExp.2.takeWhile (·.isDigit)
        if ed.isEmpty then none
        else some (signExp.1 * (digitsToNat ed : Int), signExp.2.dropWhile (·.isDigit))
      | _ => some (0, cs3)
    match expRes with
    | none => none
    | some (e, rest) =>
      let base : ℚ :=
        (digitsToNat ipart : ℚ) + (digitsToNat fracDigits : ℚ) / (10 : ℚ) ^ fracDigits.length
      let scaled : ℚ := base * (10 : ℚ) ^ (e : ℤ)
      some (if neg then -scaled else scaled, rest)

mutual

/-- A JSON value, by recursive descent (fuel bounds the nesting). -/
def parseVal : Nat → List Char → Option (Json × List Char)
  | 0, _ => none
  | fuel + 1, cs =>
    match skipWs cs with
    | 'n' :: 'u' :: 'l' :: 'l' :: r => some (.null, r)
    | 't' :: 'r' :: 'u' :: 'e' :: r => some (.bool true, r)
    | 'f' :: 'a' :: 'l' :: 's' :: 'e' :: r => some (.bool false, r)
    | '"' :: r =>
      match parseStrBody (r.length + 1) [] r with
      | some (s, rest) => some (.str s, rest)
      | none => none
    | '[' :: r =>
      match skipWs r with
      | ']' :: r2 => some (.arr [], r2)
      | r2 => parseElems fuel r2 []
    | '{' :: r =>
      match skipWs r with
      | '}' :: r2 => some (.obj [], r2)
      | r2 => parseMembers fuel r2 []
    | cs2 =>
      match parseNumber cs2 with
      | some (q, rest) => some (.num q, rest)
      | none => none

/-- Array elements after `[`, accumulated in reverse. -/
def parseElems : Nat → List Char → List Json → Option (Json × List Char)
  | 0, _, _ => none
  | fuel + 1, cs, acc =>
    match parseVal fuel cs with
    | none => none
    | some (v, rest) =>
      match skipWs rest with
      | ',' :: r2 => parseElems fuel r2 (v :: acc)
      | ']' :: r2 => some (.arr (v :: acc).reverse, r2)
      | _ => none

/-- Object members after `{`, accumulated in reverse. -/
def parseMembers : Nat → List Char → List (String × Json) → Option (Json × List Char)
  | 0, _, _ => none
  | fuel + 1, cs, acc =>
    match skipWs cs with
    | '"' :: r =>
      match parseStrBody (r.length + 1) [] r with
      | none => none
      | some (key, rest) =>
        match skipWs rest with
        | ':' :: r2 =>
          match parseVal fuel r2 with
          | none => none
          | some (v, rest2) =>
            match skipWs rest2 with
            | ',' :: r3 => parseMembers fuel r3 ((key, v) :: acc)
            | '}' :: r3 => some (.obj ((key, v) :: acc).reverse, r3)
            | _ => none
        | _ => none
    | _ => none

end

/-- Embedding of `JSON.parse`: a complete value with only trailing whitespace. -/
def jsonParse (s : String) : Option Json :=
  match parseVal (4 * s.length + 8) s.data with
  | some (j, rest) => if (skipWs rest).isEmpty then some j else none
  | none => none

/-! ## `ErrorAnalysisEngine.analyzeError` and its oracle plumbing -/

/-- Index of the first occurrence of `c`. -/
def firstIdxOf (c : Char) : List Char → Option Nat
  | [] => none
  | x :: xs => if x = c then some 0 else (firstIdxOf c xs).map (· + 1)

/-- Index of the last occurrence of `c`. -/
def lastIdxOf (c : Char) (cs : List Char) : Option Nat :=
  (firstIdxOf c cs.reverse).map (fun k => cs.length - 1 - k)

/-- The segment matched by `content.match(/\x7b[\s\S]*\x7d/)`: the leftmost
match starts at the first opening brace that still has a closing brace after
it, and the greedy `[\s\S]*` stretches to the last closing brace of the
string.  This is first-brace-to-last-brace, not a balanced-block extraction. -/
def jsonBraceMatch (content : String) : Option String :=
  let cs := content.data
  match firstIdxOf '{' cs, lastIdxOf '}' cs with
  | some i, some j =>
    if i < j then some (String.mk ((cs.drop i).take (j - i + 1))) else none
  | _, _ => none

/-- Embedding of `ErrorAnalysisEngine.logError`: bump the per-message error counter. -/
def logError (errorMessage : String) (errorHistory : String → Nat) : String → Nat :=
  fun m => if m = errorMessage then errorHistory m + 1 else errorHistory m

/-- What `analyzeError` actually returns, as far as the runtime is concerned:
on the oracle branch the raw result of `JSON.parse`, cast unchecked by
`as ErrorAnalysis`; otherwise the deterministic fallback analysis. -/
inductive AnalyzeResult where
  | oracle (j : Json)
  | fallback (a : ErrorAnalysis)

/-- Embedding of `ErrorAnalysisEngine.analyzeError`.  The `llm.chat` call is abstracted as
`oracleResp` (`none` models a throwing/unreachable oracle; `some content` the
raw response text).  The page probes feeding the prompt do not affect the
result.  Returns the analysis together with the updated `errorHistory`. -/
def analyzeError (oracleResp : Option String) (errorMessage context : String)
    (errorHistory : String → Nat) : AnalyzeResult × (String → Nat) :=
  match oracleResp with
  | none => (.fallback (fallbackErrorAnalysis errorMessage context), errorHistory)
  | some content =>
    match jsonBraceMatch content with
    | none => (.fallback (fallbackErrorAnalysis errorMessage context), errorHistory)
    | some seg =>
      match jsonParse seg with
      | none => (.fallback (fallbackErrorAnalysis errorMessage context), errorHistory)
      | some j => (.oracle j, logError errorMessage errorHistory)

def errorTypeOfString (s : String) : Option ErrorType :=
  if s = "timeout" then some .timeout
  else if s = "locator" then some .locator
  else if s = "network" then some .network
  else if s = "captcha" then some .captcha
  else if s = "ui_change" then some .ui_change
  else if s = "unknown" then some .unknown
  else none

def severityOfString (s : String) : Option Severity :=
  if s = "low" then some .low
  else if s = "medium" then some .medium
  else if s = "high" then some .high
  else none

def isStringArray : Json → Bool
  | .arr xs => xs.all (fun x => match x with | .str _ => true | _ => false)
  | _ => false

/-- The required `ErrorAnalysis` fields, present with the correct types: this
is the validation the specification attributes to `analyzeError`. -/
def validAnalysisJson : Json → Bool
  | .obj kvs =>
    (match jsObjGet kvs "errorType" with
      | some (.str s) => (errorTypeOfString s).isSome
      | _ => false) &&
    (match jsObjGet kvs "severity" with
      | some (.str s) => (severityOfString s).isSome
      | _ => false) &&
    (match jsObjGet kvs "suggestedFixes" with
      | some a => isStringArray a
      | _ => false) &&
    (match jsObjGet kvs "alternativeLocators" with
      | some a => isStringArray a
      | _ => false) &&
    (match jsObjGet kvs "shouldRetry" with
      | some (.bool _) => true
      | _ => false) &&
    (match jsObjGet kvs "retryDelay" with
      | some (.num _) => true
      | _ => false)
  | _ => false

/-- JavaScript truthiness of a JSON value. -/
def jsTruthy : Json → Bool
  | .null => false
  | .bool b => b
  | .num q => decide (q ≠ 0)
  | .str s => decide (s ≠ "")
  | .arr _ => true
  | .obj _ => true

/-- String elements of a JSON array (non-strings dropped). -/
def stringElems : Json → List String
  | .arr xs => xs.filterMap (fun x => match x with | .str s => some s | _ => none)
  | _ => []

/-- Reading of an unvalidated oracle object by the downstream loop, mirroring
how the JavaScript runtime consumes the cast: an unrecognised or absent
`errorType` takes the `switch` default (the `unknown` branch), `severity` only
ever gets compared against `high`, `shouldRetry` is used as a truthy test, and
`retryDelay` only feeds a `setTimeout`.  On every object that passes
`validAnalysisJson` this agrees with the declared field values.  No claim
exercises the ill-typed region. -/
def looseAnalysis (j : Json) : ErrorAnalysis :=
  let get := fun key => match j with
    | .obj kvs => jsObjGet kvs key
    | _ => none
  { errorType := match get "errorType" with
      | some (.str s) => (errorTypeOfString s).getD .unknown
      | _ => .unknown
    severity := match get "severity" with
      | some (.str s) => (severityOfString s).getD .medium
      | _ => .medium
    suggestedFixes := match get "suggestedFixes" with
      | some a => stringElems a
      | none => []
    alternativeLocators := match get "alternativeLocators" with
      | some a => stringElems a
      | none => []
    shouldRetry := match get "shouldRetry" with
      | some v => jsTruthy v
      | none => false
    retryDelay := match get "retryDelay" with
      | some (.num q) => q.floor.toNat
      | _ => 0 }

/-! ## The fix layer of `ErrorAnalysisEngine` -/

/-- The out-of-band resume event `fixCaptcha` blocks on: a human solving the
captcha and pressing Enter on stdin.  A `FixAttempt` can only be produced
once this signal is supplied, which models the blocking `readline` wait. -/
inductive ResumeSignal where
  | enterPressed
  deriving DecidableEq, Repr

/-- Embedding of `ErrorAnalysisEngine.fixCaptcha`: log, block until the resume signal, then
report success unconditionally; there is no automatic solving. -/
def fixCaptcha (fix : String) (resume : ResumeSignal) : FixAttempt :=
  match fix, resume with
  | _, .enterPressed =>
    { strategy := "Manual CAPTCHA resolution"
      success := true
      newLocator := none
      notes := "CAPTCHA resolved manually" }

/-- The hard-coded login candidates of `fixLocator`. -/
def loginLocators : List String :=
  ["#usernameField, #emailField, [name=\"email\"], [type=\"email\"]",
   "#passwordField, [name=\"password\"], [type=\"password\"]",
   "button[type=\"submit\"], .login-btn, #loginButton"]

/-- The hard-coded job/apply candidates of `fixLocator`. -/
def jobLocators : List String :=
  [".jobTuple, .job-card, .job-listing",
   "button:has-text(\"Apply\"), a:has-text(\"Apply\"), .apply-btn",
   ".job-title, .title, h2, h3"]

/-- Embedding of `ErrorAnalysisEngine.fixLocator`.  Here `visible l` models
`page.locator(l).first().isVisible(...)`; a probe that throws behaves like an
invisible one (both `continue`).  Probes the analysis-supplied alternative
locators first, then the context-keyed hard-coded candidates.  The
`successfulFixes` cache is not an input: the source never reads it. -/
def fixLocator (visible : String → Bool) (alternativeLocators : List String)
    (context : String) : FixAttempt :=
  match alternativeLocators.find? visible with
  | some locator =>
    { strategy := "Alternative locator: " ++ locator
      success := true
      newLocator := some locator
      notes := "Found working locator: " ++ locator }
  | none =>
    match (if strIncludes context "login" then loginLocators.find? visible else none) with
    | some locator =>
      { strategy := "Smart login locator: " ++ locator
        success := true
        newLocator := some locator
        notes := "Discovered login element: " ++ locator }
    | none =>
      match (if strIncludes context "job" || strIncludes context "apply" then
               jobLocators.find? visible else none) with
      | some locator =>
        { strategy := "Smart job locator: " ++ locator
          success := true
          newLocator := some locator
          notes := "Discovered job element: " ++ locator }
      | none =>
        { strategy := "Locator discovery failed"
          success := false
          newLocator := none
          notes := "No working alternative locators found" }

/-- Environment for the page- and oracle-dependent fix handlers.  The
timeout, UI-change and network handlers only wait on, reload or probe the
live page (the UI-change one also re-queries the LLM), so their outcomes are
supplied by the environment; `none` models a handler that throws. -/
structure FixEnv where
  visible : String → Bool
  timeoutOutcome : String → Option FixAttempt
  uiChangeOutcome : String → Option FixAttempt
  networkOutcome : String → Option FixAttempt
  resume : ResumeSignal

/-- Embedding of `ErrorAnalysisEngine.applyFix`: dispatch on the error type;
`none` models a thrown exception. -/
def applyFix (env : FixEnv) (fix : String) (analysis : ErrorAnalysis)
    (context : String) : Option FixAttempt :=
  match analysis.errorType with
  | .timeout => env.timeoutOutcome fix
  | .locator => some (fixLocator env.visible analysis.alternativeLocators context)
  | .ui_change => env.uiChangeOutcome fix
  | .network => env.networkOutcome fix
  | .captcha => some (fixCaptcha fix env.resume)
  | .unknown =>
    some { strategy := fix, success := false, newLocator := none, notes := "Unknown error type" }

/-- Loop body of `ErrorAnalysisEngine.attemptFix` over the suggested fixes:
a throwing or unsuccessful fix moves on to the next suggestion; the first
success is returned, recording a discovered locator in `successfulFixes`. -/
def attemptFixGo (env : FixEnv) (analysis : ErrorAnalysis) (context : String)
    (successfulFixes : String → Option String) :
    List String → FixAttempt × (String → Option String)
  | [] =>
    ({ strategy := "All fixes failed"
       success := false
       newLocator := none
       notes := "Manual intervention required" }, successfulFixes)
  | fix :: rest =>
    match applyFix env fix analysis context with
    | none => attemptFixGo env analysis context successfulFixes rest
    | some result =>
      if result.success then
        (result,
         match result.newLocator with
         | some l => fun c => if c = context then some l else successfulFixes c
         | none => successfulFixes)
      else
        attemptFixGo env analysis context successfulFixes rest

/-- Embedding of `ErrorAnalysisEngine.attemptFix`. -/
def attemptFix (env : FixEnv) (analysis : ErrorAnalysis) (context : String)
    (successfulFixes : String → Option String) :
    FixAttempt × (String → Option String) :=
  attemptFixGo env analysis context successfulFixes analysis.suggestedFixes

/-! ## `SelfHealingIntelligentNaukriBot.executeWithErrorRecovery`

The loop is translated with the engine calls as explicit callback
parameters; instantiating them with `analyzeCallback` / `fixCallback` below
recovers the fully wired bot.  `retries` is the resolved bound
(`maxRetries || this.credentials.jobPreferences.maxRetryAttempts`), and the
`errorAnalyzer` is assumed initialised (as `ensureBrowserReady` guarantees
before any operation runs). -/

/-- The bot's `errorStats` session counters. -/
structure ErrorStats where
  totalErrors : Nat
  fixedErrors : Nat
  errorTypes : ErrorType → Nat

/-- How a call of `executeWithErrorRecovery` ends: the operation's value, the
`null` soft failure, an error rethrown from inside the loop body, or the
trailing `Max retries (...) exceeded` throw after the loop. -/
inductive RunResult (T : Type) where
  | ok (value : T)
  | softNull
  | thrown (message : String)
  | maxRetriesExceeded
  deriving DecidableEq, Repr

/-- Everything observable about one `executeWithErrorRecovery` call:
its outcome, the final session counters and engine maps, how many times the
underlying operation was invoked, and how many times `attemptFix` ran. -/
structure RunOutcome (T : Type) where
  result : RunResult T
  stats : ErrorStats
  errorHistory : String → Nat
  successfulFixes : String → Option String
  invocations : Nat
  fixCalls : Nat

/-- The `for (let attempt = 1; attempt <= retries; attempt++)` loop.
`k` is the number of iterations the `for` head still allows
(`k = retries - attempt + 1` at entry); `op i` is the outcome of the `i`-th
`operation()` call (`.error m` models a throw with message `m`); `analyze`
and `fixer` are the engine calls, threading `errorHistory` and
`successfulFixes`. -/
def execGo {T : Type} (retries : Nat) (op : Nat → Except String T)
    (analyze : Nat → String → (String → Nat) → ErrorAnalysis × (String → Nat))
    (fixer : Nat → ErrorAnalysis → (String → Option String) →
      FixAttempt × (String → Option String)) :
    Nat → Nat → ErrorStats → (String → Nat) → (String → Option String) → RunOutcome T
  | 0, _, stats, hist, cache =>
    { result := .maxRetriesExceeded, stats := stats, errorHistory := hist
      successfulFixes := cache, invocations := 0, fixCalls := 0 }
  | k + 1, attempt, stats, hist, cache =>
    match op attempt with
    | .ok v =>
      { result := .ok v, stats := stats, errorHistory := hist
        successfulFixes := cache, invocations := 1, fixCalls := 0 }
    | .error msg =>
      let stats1 := { stats with totalErrors := stats.totalErrors + 1 }
      let ah := analyze attempt msg hist
      let analysis := ah.1
      let hist1 := ah.2
      let stats2 := { stats1 with errorTypes := fun t =>
        if t = analysis.errorType then stats1.errorTypes t + 1 else stats1.errorTypes t }
      if attempt < retries ∧ analysis.shouldRetry then
        let fr := fixer attempt analysis cache
        let fixResult := fr.1
        let cache1 := fr.2
        let stats3 :=
          if fixResult.success then { stats2 with fixedErrors := stats2.fixedErrors + 1 }
          else stats2
        let below := execGo retries op analyze fixer k (attempt + 1) stats3 hist1 cache1
        { below with invocations := below.invocations + 1, fixCalls := below.fixCalls + 1 }
      else
        if analysis.severity = .high then
          { result := .thrown msg, stats := stats2, errorHistory := hist1
            successfulFixes := cache, invocations := 1, fixCalls := 0 }
        else
          { result := .softNull, stats := stats2, errorHistory := hist1
            successfulFixes := cache, invocations := 1, fixCalls := 0 }

/-- Embedding of `executeWithErrorRecovery`, starting at attempt 1. -/
def executeWithErrorRecovery {T : Type} (retries : Nat) (op : Nat → Except String T)
    (analyze : Nat → String → (String → Nat) → ErrorAnalysis × (String → Nat))
    (fixer : Nat → ErrorAnalysis → (String → Option String) →
      FixAttempt × (String → Option String))
    (stats : ErrorStats) (hist : String → Nat) (cache : String → Option String) :
    RunOutcome T :=
  execGo retries op analyze fixer retries 1 stats hist cache

/-- The wired `analyze` callback: `this.errorAnalyzer.analyzeError` with the
oracle transcript `oracleResp` (response of the chat call made at attempt
`i`; `none` = that call threw). -/
def analyzeCallback (oracleResp : Nat → Option String) (context : String) :
    Nat → String → (String → Nat) → ErrorAnalysis × (String → Nat) :=
  fun attempt msg hist =>
    match analyzeError (oracleResp attempt) msg context hist with
    | (.oracle j, h) => (looseAnalysis j, h)
    | (.fallback a, h) => (a, h)

/-- The wired `fixer` callback: `this.errorAnalyzer.attemptFix`. -/
def fixCallback (env : FixEnv) (context : String) :
    Nat → ErrorAnalysis → (String → Option String) →
      FixAttempt × (String → Option String) :=
  fun _ analysis cache => attemptFix env analysis context cache

/-- Fresh session state: all counters at zero, both engine maps empty. -/
def initialStats : ErrorStats :=
  { totalErrors := 0, fixedErrors := 0, errorTypes := fun _ => 0 }

/-! ## `LLMJobAnalyzer.analyzeJob` and `localJobAnalysis`

The analyzer state derived in the constructor — `userSkills` and
`userKeywords` extracted from the profile, and the experience value parsed by
`this.userProfile.match(/Experience:\s*(\d+)/i)` (0 when absent) — is passed
explicitly; the theorems quantify over all such values. -/

/-- The `JobAnalysis` interface.  `matchedSkills`/`concerns` are only
validated with `Array.isArray`, so their elements stay raw JSON values. -/
structure JobAnalysis where
  shouldApply : Bool
  confidenceScore : ℚ
  reasoning : String
  matchedSkills : List Json
  concerns : List Json

/-- The structural validation `analyzeJob` performs on the parsed response
(`typeof` checks on the scalar fields, `Array.isArray` on the lists). -/
def decodeJobAnalysis : Json → Option JobAnalysis
  | .obj kvs =>
    match jsObjGet kvs "shouldApply", jsObjGet kvs "confidenceScore",
          jsObjGet kvs "reasoning", jsObjGet kvs "matchedSkills",
          jsObjGet kvs "concerns" with
    | some (.bool b), some (.num q), some (.str r), some (.arr ms), some (.arr cs) =>
      some { shouldApply := b, confidenceScore := q, reasoning := r
             matchedSkills := ms, concerns := cs }
    | _, _, _, _, _ => none
  | _ => none

/-- JavaScript `s.substring(i, j)`: clamps both indices to the string length
and swaps them when `i > j`. -/
def jsSubstring (s : String) (i j : Nat) : String :=
  let a := min (min i j) s.length
  let b := min (max i j) s.length
  String.mk ((s.data.drop a).take (b - a))

/-- The red-flag phrases of `localJobAnalysis`. -/
def redFlags : List String :=
  ["manual testing only", "no automation", "entry level only", "intern", "trainee", "unpaid"]

/-- Embedding of `LLMJobAnalyzer.localJobAnalysis`: keyword scoring over the lower-cased
title + description, then clamping into `[0, 100]`.  (`companyText` is
computed by the source but never used.) -/
def localJobAnalysis (userSkills userKeywords : List String) (userExperience : Nat)
    (jobTitle company jobDescription salary : String) : JobAnalysis :=
  let jobText := jsToLower (jobTitle ++ " " ++ jobDescription)
  let matchedSkills := userSkills.filter (fun skill => strIncludes jobText skill)
  let skillMatches := matchedSkills.length
  let keywordMatches := (userKeywords.filter (fun kw => strIncludes jobText kw)).length
  let reasoning1 : List String :=
    if skillMatches > 0 then
      ["Found " ++ toString skillMatches ++ " matching skills: " ++
        String.intercalate ", " matchedSkills]
    else ["Limited skill alignment detected"]
  let concerns1 : List String :=
    if skillMatches > 0 then [] else ["No direct skill matches found"]
  let reasoning2 : List String :=
    if keywordMatches > 0 then ["Found " ++ toString keywordMatches ++ " relevant keywords"]
    else []
  let expPart : Int × List String :=
    if strIncludes jobText "senior" ∧ userExperience ≥ 5 then
      (10, ["Good match for senior-level experience"])
    else if strIncludes jobText "junior" ∧ userExperience < 3 then
      (10, ["Appropriate for junior-level experience"])
    else if strIncludes jobText "lead" ∧ userExperience ≥ 7 then
      (15, ["Suitable for leadership role experience"])
    else (0, [])
  let flagged := redFlags.filter (fun rf => strIncludes jobText rf)
  let concerns2 := flagged.map (fun rf => "Contains red flag: " ++ rf)
  let rawScore : Int :=
    15 * (skillMatches : Int) + 5 * (keywordMatches : Int) + expPart.1 -
      20 * (flagged.length : Int)
  let confidenceScore : ℚ := max 0 (min 100 (rawScore : ℚ))
  let shouldApply := decide (confidenceScore ≥ 60) && decide (matchedSkills.length ≥ 2)
  { shouldApply := shouldApply
    confidenceScore := confidenceScore
    reasoning := String.intercalate ". " (reasoning1 ++ reasoning2 ++ expPart.2)
    matchedSkills := matchedSkills.map .str
    concerns := (concerns1 ++ concerns2).map .str }

/-- Embedding of `LLMJobAnalyzer.analyzeJob`.  The Ollama request is abstracted as
`oracleResp` (`none` models a failed request; any internal throw — no braces,
parse failure, failed validation — lands in the same `catch`, which falls
back to `localJobAnalysis`).  On the oracle path the parsed score is clamped
by `Math.max(0, Math.min(100, s))`. -/
def analyzeJob (userSkills userKeywords : List String) (userExperience : Nat)
    (oracleResp : Option String)
    (jobTitle company jobDescription salary : String) : JobAnalysis :=
  let localFallback :=
    localJobAnalysis userSkills userKeywords userExperience
      jobTitle company jobDescription salary
  match oracleResp with
  | none => localFallback
  | some response =>
    let cleaned := response.trim
    match firstIdxOf '{' cleaned.data, lastIdxOf '}' cleaned.data with
    | some jsonStart, some closeIdx =>
      let jsonString := jsSubstring cleaned jsonStart (closeIdx + 1)
      match jsonParse jsonString with
      | none => localFallback
      | some j =>
        match decodeJobAnalysis j with
        | none => localFallback
        | some analysis =>
          { analysis with
              confidenceScore := max 0 (min 100 analysis.confidenceScore) }
    | _, _ => localFallback

/-! ## Concrete scenario environments used by the claim theorems -/

/-- An inert page: every locator probe reports invisible, every page-bound
fix handler throws. -/
def noPageEnv : FixEnv :=
  { visible := fun _ => false
    timeoutOutcome := fun _ => none
    uiChangeOutcome := fun _ => none
    networkOutcome := fun _ => none
    resume := .enterPressed }

/-- Operation that fails twice with the Playwright-style timeout message and
then succeeds with 42. -/
def timeoutScenarioOp : Nat → Except String Nat :=
  fun i => if i ≤ 2 then .error "Timeout 30000ms exceeded" else .ok 42

/-- The C5 scenario: `maxRetries = 3`, the oracle unreachable (deterministic
fallback classification), a fresh session. -/
def timeoutScenarioRun : RunOutcome Nat :=
  executeWithErrorRecovery 3 timeoutScenarioOp
    (analyzeCallback (fun _ => none) "login") (fixCallback noPageEnv "login")
    initialStats (fun _ => 0) (fun _ => none)

/-- A single-failure run (`maxRetries = 1`, message `"boom"`, oracle
unreachable): exercises the deterministic fallback path once. -/
def boomRun : RunOutcome Nat :=
  executeWithErrorRecovery 1 (fun _ => .error "boom")
    (analyzeCallback (fun _ => none) "login") (fixCallback noPageEnv "login")
    initialStats (fun _ => 0) (fun _ => none)

/-- A page on which exactly the locator `#cachedBtn` is visible. -/
def cachedBtnEnv : FixEnv :=
  { noPageEnv with visible := fun l => l = "#cachedBtn" }

/-- A session fix cache that already maps context `"checkout"` to the
working locator `#cachedBtn` (as a successful earlier discovery would). -/
def cachedFixes : String → Option String :=
  fun c => if c = "checkout" then some "#cachedBtn" else none

/-- A locator-kind analysis carrying no alternative locators, as the
deterministic classifier produces for a context without keyword matches. -/
def bareLocatorAnalysis : ErrorAnalysis :=
  { errorType := .locator
    severity := .high
    suggestedFixes := ["try alternative locators", "update selectors", "wait for element"]
    alternativeLocators := []
    shouldRetry := true
    retryDelay := 2000 }

/-- A page on which exactly `#btnA` is visible. -/
def btnAEnv : FixEnv :=
  { noPageEnv with visible := fun l => l = "#btnA" }

/-- A locator-kind analysis whose first alternative locator is `#btnA`. -/
def btnAAnalysis : ErrorAnalysis :=
  { bareLocatorAnalysis with alternativeLocators := ["#btnA"] }

/-- Failures among the operation calls at attempts
`start, start+1, …, start+n-1`. -/
def countFailsFrom {T : Type} (op : Nat → Except String T) : Nat → Nat → Nat
  | _, 0 => 0
  | start, n + 1 =>
    (match op start with | .error _ => 1 | .ok _ => 0) + countFailsFrom op (start + 1) n

/-! ## Claim theorems -/

/-- Claim C2, counterexample.  The claim — any error message containing
"timeout" in any letter case classifies as `timeout` under the fallback — is
false at the concrete message `"Timeout 30000ms exceeded"`: it contains
"timeout" case-insensitively, yet the fallback classifies it as `unknown`. -/
theorem fallback_timeout_uppercase_cex :
    strIncludes (jsToLower "Timeout 30000ms exceeded") "timeout" = true ∧
    (fallbackErrorAnalysis "Timeout 30000ms exceeded" "login").errorType ≠ ErrorType.timeout := by
  decide

/-- Claim C2, amended.  The fallback keyword rule is case-sensitive: for every
error message that contains the exact lowercase substring `"timeout"`, and
every context, `fallbackErrorAnalysis` classifies the error as
`kind = timeout` with medium severity and the canned timeout fixes. -/
theorem fallback_timeout_case_sensitive (errorMessage context : String)
    (h : strIncludes errorMessage "timeout" = true) :
    (fallbackErrorAnalysis errorMessage context).errorType = ErrorType.timeout ∧
    (fallbackErrorAnalysis errorMessage context).severity = Severity.medium ∧
    (fallbackErrorAnalysis errorMessage context).suggestedFixes =
      ["increase timeout", "wait for load", "retry navigation"] := by
  simp [fallbackErrorAnalysis, h]

/-- Witness for C2's amended theorem at the message `"page timeout hit"`. -/
theorem fallback_timeout_case_sensitive_witness :
    (fallbackErrorAnalysis "page timeout hit" "job search").errorType = ErrorType.timeout ∧
    (fallbackErrorAnalysis "page timeout hit" "job search").severity = Severity.medium ∧
    (fallbackErrorAnalysis "page timeout hit" "job search").suggestedFixes =
      ["increase timeout", "wait for load", "retry navigation"] :=
  fallback_timeout_case_sensitive "page timeout hit" "job search" (by decide)

/-- Claim C3, counterexample.  The claim — `analyzeError` validates that the
required `ErrorAnalysis` fields are present with correct types before
returning an oracle result — is false at the concrete oracle response
`"\x7b\x7d"`: the empty JSON object parses, is returned on the oracle branch,
and is missing every required field. -/
theorem analyzeError_unvalidated_cex :
    (analyzeError (some "\x7b\x7d") "msg" "ctx" (fun _ => 0)).1 =
      AnalyzeResult.oracle (Json.obj []) ∧
    validAnalysisJson (Json.obj []) = false :=
  ⟨rfl, rfl⟩

/-- Claim C3, amended.  `analyzeError` never throws: it either returns the
deterministic fallback classification (oracle unreachable, no brace segment,
or `JSON.parse` failure), or it returns the parsed object of the segment
running from the first `\x7b` to the last `\x7d` of the response — with no
field validation, so that object may lack required fields (see the
counterexample). -/
theorem analyzeError_fallback_or_parsed (oracleResp : Option String)
    (msg ctx : String) (hist : String → Nat) :
    (analyzeError oracleResp msg ctx hist).1 =
      AnalyzeResult.fallback (fallbackErrorAnalysis msg ctx) ∨
    (∃ content seg j, oracleResp = some content ∧ jsonBraceMatch content = some seg ∧
      jsonParse seg = some j ∧ (analyzeError oracleResp msg ctx hist).1 =
        AnalyzeResult.oracle j) := by
  cases oracleResp with
  | none => left; rfl
  | some content =>
    cases hseg : jsonBraceMatch content with
    | none => left; simp [analyzeError, hseg]
    | some seg =>
      cases hj : jsonParse seg with
      | none => left; simp [analyzeError, hseg, hj]
      | some j =>
        right
        exact ⟨content, seg, j, rfl, hseg, hj, by simp [analyzeError, hseg, hj]⟩

/-- Claim C8.  `fixCaptcha` is fully manual: the blocking `readline` wait is
the `ResumeSignal` argument — the handler cannot produce a `FixAttempt` at
all before the external resume arrives — and once resumed it reports success
unconditionally, with no solving logic of its own. -/
theorem fixCaptcha_blocks_then_succeeds (fix : String) (resume : ResumeSignal) :
    fixCaptcha fix resume =
      { strategy := "Manual CAPTCHA resolution"
        success := true
        newLocator := none
        notes := "CAPTCHA resolved manually" } := by
  cases resume; rfl

/-- Claim C4, counterexample.  The claim — a subsequent failure in a context
consults the cached locator first — is false at a concrete state: the cache
maps `"checkout"` to `#cachedBtn`, that locator is visible on the page, yet
`attemptFix` fails outright (nothing reads the cache), where consulting the
cached locator first would have succeeded with it. -/
theorem attemptFix_ignores_cache_cex :
    cachedFixes "checkout" = some "#cachedBtn" ∧
    cachedBtnEnv.visible "#cachedBtn" = true ∧
    (attemptFix cachedBtnEnv bareLocatorAnalysis "checkout" cachedFixes).1.success = false ∧
    (attemptFix cachedBtnEnv bareLocatorAnalysis "checkout" cachedFixes).1.newLocator ≠
      some "#cachedBtn" := by
  decide

/-- Auxiliary induction for C4 over the suggested-fix list: the returned
`FixAttempt` never depends on the `successfulFixes` cache. -/
theorem attemptFixGo_result_cache_independent (env : FixEnv) (analysis : ErrorAnalysis)
    (ctx : String) (fixes : List String) :
    ∀ cache1 cache2, (attemptFixGo env analysis ctx cache1 fixes).1 =
      (attemptFixGo env analysis ctx cache2 fixes).1 := by
  induction fixes with
  | nil => intro cache1 cache2; rfl
  | cons fix rest ih =>
    intro cache1 cache2
    simp only [attemptFixGo]
    cases hap : applyFix env fix analysis ctx with
    | none => exact ih cache1 cache2
    | some result =>
      by_cases hs : result.success = true
      · simp [hs]
      · simp only [Bool.not_eq_true] at hs
        simp only [hs, Bool.false_eq_true, if_false]
        exact ih cache1 cache2

/-- Auxiliary induction for C4: when the returned fix succeeded with a
discovered locator, the updated cache maps the context to that locator. -/
theorem attemptFixGo_records_locator (env : FixEnv) (analysis : ErrorAnalysis)
    (ctx : String) (fixes : List String) :
    ∀ cache l, (attemptFixGo env analysis ctx cache fixes).1.success = true →
      (attemptFixGo env analysis ctx cache fixes).1.newLocator = some l →
      (attemptFixGo env analysis ctx cache fixes).2 ctx = some l := by
  induction fixes with
  | nil =>
    intro cache l hsucc _
    simp [attemptFixGo] at hsucc
  | cons fix rest ih =>
    intro cache l hsucc hloc
    simp only [attemptFixGo] at hsucc hloc ⊢
    cases hap : applyFix env fix analysis ctx with
    | none =>
      rw [hap] at hsucc hloc
      exact ih cache l hsucc hloc
    | some result =>
      rw [hap] at hsucc hloc
      by_cases hs : result.success = true
      · simp only [hs, if_true] at hsucc hloc ⊢
        rw [hloc]
        simp
      · simp only [Bool.not_eq_true] at hs
        simp only [hs, Bool.false_eq_true, if_false] at hsucc hloc ⊢
        exact ih cache l hsucc hloc

/-- Claim C4, amended.  The session fix cache is write-only within a session:
the outcome of handling a failure is entirely independent of
`successfulFixes` (the cached locator is never consulted — subsequent
failures re-probe the analysis-supplied alternatives and the hard-coded
context candidates only), while a successful fix that discovered a locator
does record it in the cache for its context. -/
theorem attemptFix_cache_write_only (env : FixEnv) (analysis : ErrorAnalysis)
    (ctx : String) :
    (∀ cache1 cache2, (attemptFix env analysis ctx cache1).1 =
      (attemptFix env analysis ctx cache2).1) ∧
    (∀ cache l, (attemptFix env analysis ctx cache).1.success = true →
      (attemptFix env analysis ctx cache).1.newLocator = some l →
      (attemptFix env analysis ctx cache).2 ctx = some l) :=
  ⟨fun cache1 cache2 =>
    attemptFixGo_result_cache_independent env analysis ctx analysis.suggestedFixes cache1 cache2,
   fun cache l hsucc hloc =>
    attemptFixGo_records_locator env analysis ctx analysis.suggestedFixes cache l hsucc hloc⟩

/-- Witness for C4's amended theorem: on a page where `#btnA` is visible and
the analysis offers it as an alternative, the fix succeeds, the result is
the same from an empty cache and from a pre-populated one, and the discovery
is recorded for the context. -/
theorem attemptFix_cache_write_only_witness :
    (attemptFix btnAEnv btnAAnalysis "checkout" (fun _ => none)).1 =
      (attemptFix btnAEnv btnAAnalysis "checkout" cachedFixes).1 ∧
    (attemptFix btnAEnv btnAAnalysis "checkout" (fun _ => none)).2 "checkout" =
      some "#btnA" :=
  ⟨(attemptFix_cache_write_only btnAEnv btnAAnalysis "checkout").1 (fun _ => none) cachedFixes,
   (attemptFix_cache_write_only btnAEnv btnAAnalysis "checkout").2 (fun _ => none) "#btnA"
     (by decide) (by decide)⟩

/-- Auxiliary for C1: with `k` loop iterations still allowed, at most `k`
further operation calls happen. -/
theorem execGo_invocations_le {T : Type} (retries : Nat) (op : Nat → Except String T)
    (analyze : Nat → String → (String → Nat) → ErrorAnalysis × (String → Nat))
    (fixer : Nat → ErrorAnalysis → (String → Option String) →
      FixAttempt × (String → Option String)) :
    ∀ (k attempt : Nat) (stats : ErrorStats) (hist : String → Nat)
      (cache : String → Option String),
      (execGo retries op analyze fixer k attempt stats hist cache).invocations ≤ k := by
  intro k
  induction k with
  | zero => intro attempt stats hist cache; simp [execGo]
  | succ k ih =>
    intro attempt stats hist cache
    simp only [execGo]
    split
    · simp
    · split
      · simpa using Nat.succ_le_succ (ih _ _ _ _)
      · split <;> simp

/-- Every branch of the deterministic fallback classifier says retry. -/
theorem fallback_shouldRetry_true (errorMessage context : String) :
    (fallbackErrorAnalysis errorMessage context).shouldRetry = true := by
  unfold fallbackErrorAnalysis
  split
  · rfl
  · split <;> rfl

/-- Auxiliary for C1: when every call fails and every classification says
retry, the loop uses exactly its remaining `k` attempt slots (fix successes
included — `continue` advances the attempt counter), for any fix outcomes. -/
theorem execGo_invocations_eq {T : Type} (retries : Nat) (op : Nat → Except String T)
    (analyze : Nat → String → (String → Nat) → ErrorAnalysis × (String → Nat))
    (fixer : Nat → ErrorAnalysis → (String → Option String) →
      FixAttempt × (String → Option String))
    (hfail : ∀ i, ∃ m, op i = Except.error m)
    (hretry : ∀ i msg h0, ((analyze i msg h0).1).shouldRetry = true) :
    ∀ (k attempt : Nat) (stats : ErrorStats) (hist : String → Nat)
      (cache : String → Option String),
      attempt + k = retries + 1 → 1 ≤ k →
      (execGo retries op analyze fixer k attempt stats hist cache).invocations = k := by
  intro k
  induction k with
  | zero => intro attempt stats hist cache _ hk; exact absurd hk (by omega)
  | succ k ih =>
    intro attempt stats hist cache hinv _
    obtain ⟨m, hm⟩ := hfail attempt
    simp only [execGo, hm]
    by_cases hk : 1 ≤ k
    · rw [if_pos ⟨by omega, hretry attempt m hist⟩]
      simp [ih (attempt + 1) _ _ _ (by omega) hk]
    · have hak : attempt = retries := by omega
      rw [if_neg (fun hc => absurd hc.1 (by omega))]
      split <;> (simp; omega)

/-- Claim C1.  For every retry bound `N ≥ 1`, `executeWithErrorRecovery`
invokes the underlying operation at most `N` times, whatever the
classifications and fix outcomes; and when every call fails and every
classification says retry, exactly `N` invocations happen regardless of fix
successes — a successful fix attempt consumes one of the `N` slots. -/
theorem executeWithErrorRecovery_at_most_retries {T : Type} (retries : Nat)
    (hr : 1 ≤ retries) (op : Nat → Except String T)
    (analyze : Nat → String → (String → Nat) → ErrorAnalysis × (String → Nat))
    (fixer : Nat → ErrorAnalysis → (String → Option String) →
      FixAttempt × (String → Option String))
    (stats : ErrorStats) (hist : String → Nat) (cache : String → Option String) :
    (executeWithErrorRecovery retries op analyze fixer stats hist cache).invocations ≤
      retries ∧
    ((∀ i, ∃ m, op i = Except.error m) →
     (∀ i msg h0, ((analyze i msg h0).1).shouldRetry = true) →
     (executeWithErrorRecovery retries op analyze fixer stats hist cache).invocations =
       retries) :=
  ⟨execGo_invocations_le retries op analyze fixer retries 1 stats hist cache,
   fun hfail hretry =>
    execGo_invocations_eq retries op analyze fixer hfail hretry retries 1 stats hist cache
      (by omega) hr⟩

/-- Witness for C1 at `retries = 2` with a concretely failing operation,
the deterministic fallback classifier and always-successful fixes. -/
theorem executeWithErrorRecovery_at_most_retries_witness :
    (executeWithErrorRecovery 2 (fun _ => (Except.error "boom" : Except String Nat))
      (analyzeCallback (fun _ => none) "login") (fixCallback noPageEnv "login")
      initialStats (fun _ => 0) (fun _ => none)).invocations ≤ 2 ∧
    (executeWithErrorRecovery 2 (fun _ => (Except.error "boom" : Except String Nat))
      (analyzeCallback (fun _ => none) "login") (fixCallback noPageEnv "login")
      initialStats (fun _ => 0) (fun _ => none)).invocations = 2 := by
  have h := executeWithErrorRecovery_at_most_retries 2 (by omega)
    (fun _ => (Except.error "boom" : Except String Nat))
    (analyzeCallback (fun _ => none) "login") (fixCallback noPageEnv "login")
    initialStats (fun _ => 0) (fun _ => none)
  exact ⟨h.1, h.2 (fun i => ⟨"boom", rfl⟩)
    (fun i msg h0 => fallback_shouldRetry_true msg "login")⟩

/-- Auxiliary for C9: with the loop invariant `attempt + k = retries + 1`
and at least one slot left, the loop never falls through to the trailing
`Max retries exceeded` throw. -/
theorem execGo_result_ne_max {T : Type} (retries : Nat) (op : Nat → Except String T)
    (analyze : Nat → String → (String → Nat) → ErrorAnalysis × (String → Nat))
    (fixer : Nat → ErrorAnalysis → (String → Option String) →
      FixAttempt × (String → Option String)) :
    ∀ (k attempt : Nat) (stats : ErrorStats) (hist : String → Nat)
      (cache : String → Option String),
      attempt + k = retries + 1 → 1 ≤ k →
      (execGo retries op analyze fixer k attempt stats hist cache).result ≠
        RunResult.maxRetriesExceeded := by
  intro k
  induction k with
  | zero => intro attempt stats hist cache _ hk; exact absurd hk (by omega)
  | succ k ih =>
    intro attempt stats hist cache hinv _
    simp only [execGo]
    split
    · simp
    · split
      · rename_i hcond
        have hk : 1 ≤ k := by omega
        simpa using ih (attempt + 1) _ _ _ (by omega) hk
      · split <;> simp

/-- Claim C9.  For every retry bound `retries ≥ 1`, the trailing
`Max retries (...) exceeded` throw of `executeWithErrorRecovery` is
unreachable: on the final attempt the retry-branch guard
`attempt < retries` is false, so that iteration returns or rethrows. -/
theorem max_retries_throw_unreachable {T : Type} (retries : Nat) (hr : 1 ≤ retries)
    (op : Nat → Except String T)
    (analyze : Nat → String → (String → Nat) → ErrorAnalysis × (String → Nat))
    (fixer : Nat → ErrorAnalysis → (String → Option String) →
      FixAttempt × (String → Option String))
    (stats : ErrorStats) (hist : String → Nat) (cache : String → Option String) :
    (executeWithErrorRecovery retries op analyze fixer stats hist cache).result ≠
      RunResult.maxRetriesExceeded :=
  execGo_result_ne_max retries op analyze fixer retries 1 stats hist cache (by omega) hr

/-- Witness for C9 at `retries = 1` with a concretely failing operation. -/
theorem max_retries_throw_unreachable_witness :
    (executeWithErrorRecovery 1 (fun _ => (Except.error "boom" : Except String Nat))
      (analyzeCallback (fun _ => none) "login") (fixCallback noPageEnv "login")
      initialStats (fun _ => 0) (fun _ => none)).result ≠
      RunResult.maxRetriesExceeded :=
  max_retries_throw_unreachable 1 (by omega)
    (fun _ => (Except.error "boom" : Except String Nat))
    (analyzeCallback (fun _ => none) "login") (fixCallback noPageEnv "login")
    initialStats (fun _ => 0) (fun _ => none)

/-- Claim C7.  When the first failure's classification says don't retry while
a retry slot remains (`attempt 1` of `maxRetries = 2`): with high severity
the original error is rethrown with no second operation call and no call to
the fix dispatcher; with low or medium severity the call returns `null`. -/
theorem noRetry_first_attempt_outcome {T : Type} (op : Nat → Except String T)
    (analyze : Nat → String → (String → Nat) → ErrorAnalysis × (String → Nat))
    (fixer : Nat → ErrorAnalysis → (String → Option String) →
      FixAttempt × (String → Option String))
    (stats : ErrorStats) (hist : String → Nat) (cache : String → Option String)
    (msg : String) (hop : op 1 = Except.error msg)
    (hsr : ((analyze 1 msg hist).1).shouldRetry = false) :
    (((analyze 1 msg hist).1).severity = Severity.high →
      (executeWithErrorRecovery 2 op analyze fixer stats hist cache).result =
        RunResult.thrown msg ∧
      (executeWithErrorRecovery 2 op analyze fixer stats hist cache).invocations = 1 ∧
      (executeWithErrorRecovery 2 op analyze fixer stats hist cache).fixCalls = 0) ∧
    ((((analyze 1 msg hist).1).severity = Severity.low ∨
      ((analyze 1 msg hist).1).severity = Severity.medium) →
      (executeWithErrorRecovery 2 op analyze fixer stats hist cache).result =
        RunResult.softNull ∧
      (executeWithErrorRecovery 2 op analyze fixer stats hist cache).invocations = 1 ∧
      (executeWithErrorRecovery 2 op analyze fixer stats hist cache).fixCalls = 0) := by
  unfold executeWithErrorRecovery
  simp only [execGo, hop]
  rw [if_neg (fun hc => by rw [hsr] at hc; exact Bool.false_ne_true hc.2)]
  constructor
  · intro hhigh
    rw [if_pos hhigh]
    exact ⟨rfl, rfl, rfl⟩
  · intro hlow
    have hne : ¬ ((analyze 1 msg hist).1).severity = Severity.high := by
      rcases hlow with h | h <;> simp [h]
    rw [if_neg hne]
    exact ⟨rfl, rfl, rfl⟩

/-- Witness for C7: a concrete operation failing with `"fatal"` under a
classifier forced to `shouldRetry = false` (high severity variant), plus the
medium-severity variant returning `null`. -/
theorem noRetry_first_attempt_outcome_witness :
    (executeWithErrorRecovery 2 (fun _ => (Except.error "fatal" : Except String Nat))
      (fun _ _ h0 => ({ bareLocatorAnalysis with shouldRetry := false }, h0))
      (fixCallback noPageEnv "login") initialStats (fun _ => 0) (fun _ => none)).result =
      RunResult.thrown "fatal" ∧
    (executeWithErrorRecovery 2 (fun _ => (Except.error "fatal" : Except String Nat))
      (fun _ _ h0 =>
        ({ bareLocatorAnalysis with shouldRetry := false, severity := .medium }, h0))
      (fixCallback noPageEnv "login") initialStats (fun _ => 0) (fun _ => none)).result =
      RunResult.softNull :=
  ⟨((noRetry_first_attempt_outcome (fun _ => (Except.error "fatal" : Except String Nat))
      (fun _ _ h0 => ({ bareLocatorAnalysis with shouldRetry := false }, h0))
      (fixCallback noPageEnv "login") initialStats (fun _ => 0) (fun _ => none)
      "fatal" rfl rfl).1 rfl).1,
   ((noRetry_first_attempt_outcome (fun _ => (Except.error "fatal" : Except String Nat))
      (fun _ _ h0 =>
        ({ bareLocatorAnalysis with shouldRetry := false, severity := .medium }, h0))
      (fixCallback noPageEnv "login") initialStats (fun _ => 0) (fun _ => none)
      "fatal" rfl rfl).2 (Or.inr rfl)).1⟩

/-- Claim C5, counterexample.  In the claim's scenario — two failures with
message `"Timeout 30000ms exceeded"`, success on the third call,
`maxRetries = 3`, oracle unreachable so the deterministic fallback
classifies — the final result is indeed the success value and
`totalErrors = 2`, but the per-kind timeout counter is 0, not 2: the
case-sensitive fallback never classifies the capital-T message as
`timeout`. -/
theorem timeout_scenario_counts_cex :
    timeoutScenarioRun.result = RunResult.ok 42 ∧
    timeoutScenarioRun.stats.totalErrors = 2 ∧
    ¬ timeoutScenarioRun.stats.errorTypes ErrorType.timeout = 2 := by
  decide

/-- Claim C5, amended.  Same scenario: the final result is the operation's
success value and `totalErrors = 2`, but both failures are classified
`unknown` (the fallback's `includes('timeout')` test is case-sensitive), so
`errorKindCounts.unknown = 2` while `errorKindCounts.timeout = 0`. -/
theorem timeout_scenario_counts :
    timeoutScenarioRun.result = RunResult.ok 42 ∧
    timeoutScenarioRun.stats.totalErrors = 2 ∧
    timeoutScenarioRun.stats.errorTypes ErrorType.unknown = 2 ∧
    timeoutScenarioRun.stats.errorTypes ErrorType.timeout = 0 := by
  decide

/-- Claim C6, counterexample.  The claim — every failure increments both
`totalErrors` and the per-message `errorFrequency` — is false on a concrete
single-failure run over the fallback path (oracle unreachable): the failure
increments `totalErrors` to 1 but leaves the `errorHistory` count of its
message at 0, where the claim requires 1. -/
theorem errorFrequency_fallback_cex :
    boomRun.stats.totalErrors = 1 ∧
    boomRun.invocations = 1 ∧
    ¬ boomRun.errorHistory "boom" = 1 := by
  decide

/-- Auxiliary for C6: `totalErrors` grows by exactly the number of failed
operation calls the loop made. -/
theorem execGo_totalErrors {T : Type} (retries : Nat) (op : Nat → Except String T)
    (analyze : Nat → String → (String → Nat) → ErrorAnalysis × (String → Nat))
    (fixer : Nat → ErrorAnalysis → (String → Option String) →
      FixAttempt × (String → Option String)) :
    ∀ (k attempt : Nat) (stats : ErrorStats) (hist : String → Nat)
      (cache : String → Option String),
      (execGo retries op analyze fixer k attempt stats hist cache).stats.totalErrors =
        stats.totalErrors + countFailsFrom op attempt
          (execGo retries op analyze fixer k attempt stats hist cache).invocations := by
  intro k
  induction k with
  | zero => intro attempt stats hist cache; simp [execGo, countFailsFrom]
  | succ k ih =>
    intro attempt stats hist cache
    simp only [execGo]
    split
    · rename_i v hop
      simp [countFailsFrom, hop]
    · rename_i msg hop
      split
      · simp only [ih, countFailsFrom, hop]
        split <;> (simp; try omega)
      · split <;> (simp [countFailsFrom, hop]; try omega)

/-- Claim C6, amended.  `totalErrors` is incremented once per failure — over a
whole run it grows by exactly the number of failed operation calls — but the
per-message `errorFrequency` map is updated inside `analyzeError` only when
the oracle path yields a parsed JSON block: on the deterministic fallback
path (and on oracle responses with no parseable block) it is left
unchanged. -/
theorem totalErrors_every_failure_history_oracle_only {T : Type} :
    (∀ (retries : Nat) (op : Nat → Except String T)
      (analyze : Nat → String → (String → Nat) → ErrorAnalysis × (String → Nat))
      (fixer : Nat → ErrorAnalysis → (String → Option String) →
        FixAttempt × (String → Option String))
      (stats : ErrorStats) (hist : String → Nat) (cache : String → Option String),
      (executeWithErrorRecovery retries op analyze fixer stats hist cache).stats.totalErrors =
        stats.totalErrors + countFailsFrom op 1
          (executeWithErrorRecovery retries op analyze fixer stats hist cache).invocations) ∧
    (∀ (oracleResp : Option String) (msg ctx : String) (hist : String → Nat),
      (analyzeError oracleResp msg ctx hist).2 =
        match (analyzeError oracleResp msg ctx hist).1 with
        | .oracle _ => logError msg hist
        | .fallback _ => hist) := by
  constructor
  · intro retries op analyze fixer stats hist cache
    exact execGo_totalErrors retries op analyze fixer retries 1 stats hist cache
  · intro oracleResp msg ctx hist
    cases oracleResp with
    | none => rfl
    | some content =>
      cases hseg : jsonBraceMatch content with
      | none => simp [analyzeError, hseg]
      | some seg =>
        cases hj : jsonParse seg with
        | none => simp [analyzeError, hseg, hj]
        | some j => simp [analyzeError, hseg, hj]

/-- The clamp `Math.max(0, Math.min(100, x))` lands in `[0, 100]`. -/
theorem clamp_range (x : ℚ) : 0 ≤ max 0 (min 100 x) ∧ max 0 (min 100 x) ≤ 100 :=
  ⟨le_max_left 0 _, max_le (by norm_num) (min_le_left 100 x)⟩

/-- Auxiliary for C10: the local fallback's accumulated score is clamped. -/
theorem localJobAnalysis_confidence_in_range (userSkills userKeywords : List String)
    (userExperience : Nat) (jobTitle company jobDescription salary : String) :
    0 ≤ (localJobAnalysis userSkills userKeywords userExperience
          jobTitle company jobDescription salary).confidenceScore ∧
    (localJobAnalysis userSkills userKeywords userExperience
      jobTitle company jobDescription salary).confidenceScore ≤ 100 := by
  simp only [localJobAnalysis]
  exact clamp_range _

/-- Claim C10.  For every analyzer state, every input and every oracle outcome,
`analyzeJob` returns a confidence score in `[0, 100]`: the oracle path clamps
the parsed score and the local fallback clamps its accumulated score. -/
theorem analyzeJob_confidence_in_range (userSkills userKeywords : List String)
    (userExperience : Nat) (oracleResp : Option String)
    (jobTitle company jobDescription salary : String) :
    0 ≤ (analyzeJob userSkills userKeywords userExperience oracleResp
          jobTitle company jobDescription salary).confidenceScore ∧
    (analyzeJob userSkills userKeywords userExperience oracleResp
      jobTitle company jobDescription salary).confidenceScore ≤ 100 := by
  simp only [analyzeJob]
  repeat' split
  all_goals
    first
      | exact localJobAnalysis_confidence_in_range userSkills userKeywords userExperience
          jobTitle company jobDescription salary
      | exact clamp_range _

end NaukriBot
